import Mathlib

/-!
Verification of the piheat temperature-monitor service (`main.go`).

The Go program is embedded shallowly:

* SQLite timestamps (`CURRENT_TIMESTAMP`, `datetime(...)`, `date(...)`) are UTC
  civil date-times; we model them as a `DateTime` record of numeric fields.
  SQLite compares and orders such values as ISO-8601 strings, which for valid
  date-times of equal textual shape coincides with chronological order; the
  model compares instants through `DateTime.toSeconds` (Unix seconds, computed
  by the standard civil-from-days algorithm, the same arithmetic SQLite's
  julian-day conversion performs).
* Go `float64` arithmetic in `getTemperature` is modelled exactly over `ℚ`
  (the literals `0.5`, `60.0`, `0.2`, `1000.0` are exact rationals; every
  claim proved about these values has slack far exceeding double rounding).
* Go `int64` division and remainder truncate toward zero: `Int.tdiv`/`Int.tmod`.
* I/O outcomes that the program only branches on (sensor file readability,
  database insert/query success) are Boolean/Option parameters of the
  embedded handlers; log output is returned as a list of message strings.
-/

/-- Character for one decimal digit, as produced by Go's zero-padded
`time.Format` verbs and by SQLite's date rendering. -/
def digitCh (n : Nat) : Char := Char.ofNat (48 + n)

/-- Numeric value of a digit character. -/
def chVal (c : Char) : Nat := c.toNat - 48

/-- Two-digit zero-padded rendering (Go layout verbs `01`, `02`, `15`, `04`, `05`). -/
def pad2 (n : Nat) : List Char := [digitCh (n / 10), digitCh (n % 10)]

/-- Four-digit zero-padded rendering (Go layout verb `2006`). -/
def pad4 (n : Nat) : List Char :=
  [digitCh (n / 1000), digitCh (n / 100 % 10), digitCh (n / 10 % 10), digitCh (n % 10)]

/-- A civil (wall-clock) date-time, the value space of SQLite `DATETIME`
text timestamps and of Go `time.Time` as used by `main.go` (UTC, whole
seconds; the program never uses sub-second precision of stored rows). -/
structure DateTime where
  y : Nat
  mo : Nat
  d : Nat
  h : Nat
  mi : Nat
  s : Nat
  deriving DecidableEq

/-- Gregorian leap-year test (as in Go `time` and SQLite). -/
def isLeapYear (y : Nat) : Bool := y % 4 == 0 && (y % 100 != 0 || y % 400 == 0)

/-- Length of a month (Go `daysIn`, used by `time.Parse` day-range validation). -/
def daysInMonth (y mo : Nat) : Nat :=
  if mo = 2 then (if isLeapYear y then 29 else 28)
  else if mo = 4 ∨ mo = 6 ∨ mo = 9 ∨ mo = 11 then 30 else 31

/-- A date-time all of whose fields are in range (what `CURRENT_TIMESTAMP`
produces and what Go `time.Parse` accepts for the layouts used here): a
4-digit positive year, a real month/day, and in-range time of day. -/
def DateTime.isValid (dt : DateTime) : Bool :=
  1 ≤ dt.y && dt.y ≤ 9999 && 1 ≤ dt.mo && dt.mo ≤ 12 && 1 ≤ dt.d &&
    dt.d ≤ daysInMonth dt.y dt.mo && dt.h ≤ 23 && dt.mi ≤ 59 && dt.s ≤ 59

/-- Day count of a civil date from 0000-03-01 (the standard civil-from-days
algorithm used, in equivalent julian-day form, by both Go's `time` package
and SQLite's date functions).  The formula is linear in `d`, so a `d` beyond
the end of the month denotes the corresponding day of the following month —
exactly SQLite's normalization of dates such as `2024-02-31`. -/
def daysFromCivilN (y mo d : Nat) : Nat :=
  let sy := if mo ≤ 2 then y - 1 else y
  let era := sy / 400
  let yoe := sy % 400
  let mp := (mo + 9) % 12
  let doy := (153 * mp + 2) / 5 + d - 1
  let doe := yoe * 365 + yoe / 4 - yoe / 100 + doy
  era * 146097 + doe

/-- Unix seconds of a civil date-time read as UTC (Go `Time.Unix` for times
parsed without a zone, SQLite `strftime` seconds).  `719468` is the civil
day number of 1970-01-01. -/
def DateTime.toSeconds (dt : DateTime) : Int :=
  86400 * ((daysFromCivilN dt.y dt.mo dt.d : Int) - 719468) +
    (dt.h * 3600 + dt.mi * 60 + dt.s : Nat)

/-- Date part rendering, `YYYY-MM-DD`. -/
def renderDateCh (dt : DateTime) : List Char :=
  pad4 dt.y ++ '-' :: pad2 dt.mo ++ '-' :: pad2 dt.d

/-- Time-of-day rendering, `HH:MM:SS`. -/
def renderTimeCh (dt : DateTime) : List Char :=
  pad2 dt.h ++ ':' :: pad2 dt.mi ++ ':' :: pad2 dt.s

/-- Full SQLite datetime text, `YYYY-MM-DD HH:MM:SS` (also the Go layout
`2006-01-02 15:04:05` used by `temperatureHandler`). -/
def renderFull (dt : DateTime) : String :=
  String.mk (renderDateCh dt ++ ' ' :: renderTimeCh dt)

/-- SQLite `date(...)` text, `YYYY-MM-DD`. -/
def renderDateOnly (dt : DateTime) : String := String.mk (renderDateCh dt)

/-- Read exactly two digit characters (Go `getnum` with `fixed = true`). -/
def read2 : List Char → Option (Nat × List Char)
  | a :: b :: rest =>
    if a.isDigit && b.isDigit then some (10 * chVal a + chVal b, rest) else none
  | _ => none

/-- Read exactly four digit characters (Go 4-digit year). -/
def read4 : List Char → Option (Nat × List Char)
  | a :: b :: c :: d :: rest =>
    if a.isDigit && b.isDigit && c.isDigit && d.isDigit then
      some (1000 * chVal a + 100 * chVal b + 10 * chVal c + chVal d, rest)
    else none
  | _ => none

/-- Read one or two digit characters (Go `getnum` with `fixed = false`,
used for the `15` hour verb of the plain datetime layout). -/
def readHour : List Char → Option (Nat × List Char)
  | a :: b :: rest =>
    if a.isDigit then
      if b.isDigit then some (10 * chVal a + chVal b, rest)
      else some (chVal a, b :: rest)
    else none
  | [a] => if a.isDigit then some (chVal a, []) else none
  | [] => none

/-- Match one literal character of the layout. -/
def expectCh (c : Char) : List Char → Option (List Char)
  | x :: rest => if x = c then some rest else none
  | [] => none

/-- Go `time.Parse` consumes an unasked-for fractional second: a `.` directly
after the seconds must be followed by at least one digit, which are skipped. -/
def skipFrac : List Char → Option (List Char)
  | '.' :: rest =>
    match rest with
    | c :: _ => if c.isDigit then some (rest.dropWhile Char.isDigit) else none
    | [] => none
  | rest => some rest

/-- RFC 3339 zone suffix: `Z`, or `±HH:MM` with in-range fields; returns the
zone offset in seconds east of UTC. -/
def readZone : List Char → Option (Int × List Char)
  | 'Z' :: rest => some (0, rest)
  | '+' :: rest =>
    match read2 rest with
    | some (zh, rest) =>
      match expectCh ':' rest with
      | some rest =>
        match read2 rest with
        | some (zm, rest) =>
          if zh ≤ 23 && zm ≤ 59 then some ((zh * 3600 + zm * 60 : Nat), rest) else none
        | none => none
      | none => none
    | none => none
  | '-' :: rest =>
    match read2 rest with
    | some (zh, rest) =>
      match expectCh ':' rest with
      | some rest =>
        match read2 rest with
        | some (zm, rest) =>
          if zh ≤ 23 && zm ≤ 59 then some (-((zh * 3600 + zm * 60 : Nat) : Int), rest) else none
        | none => none
      | none => none
    | none => none
  | _ => none

/-- Read the `YYYY-MM-DD` date prefix shared by all three layouts. -/
def readDate (cs : List Char) : Option (Nat × Nat × Nat × List Char) :=
  match read4 cs with
  | none => none
  | some (y, cs) =>
    match expectCh '-' cs with
    | none => none
    | some cs =>
      match read2 cs with
      | none => none
      | some (mo, cs) =>
        match expectCh '-' cs with
        | none => none
        | some cs =>
          match read2 cs with
          | none => none
          | some (d, cs) => some (y, mo, d, cs)

/-- Range validation performed by Go `time.Parse` (month, day-of-month against
the month's length, hour, minute, second). -/
def fieldsOk (y mo d h mi s : Nat) : Bool :=
  1 ≤ mo && mo ≤ 12 && 1 ≤ d && d ≤ daysInMonth y mo && h ≤ 23 && mi ≤ 59 && s ≤ 59

/-- Go `time.Parse(time.RFC3339, ...)`: strict `YYYY-MM-DDTHH:MM:SS`, optional
fractional seconds, and a mandatory `Z` or `±HH:MM` zone; yields the wall-clock
fields together with the zone offset in seconds. -/
def parseRFC3339 (cs : List Char) : Option (DateTime × Int) :=
  match readDate cs with
  | none => none
  | some (y, mo, d, cs) =>
    match expectCh 'T' cs with
    | none => none
    | some cs =>
      match read2 cs with
      | none => none
      | some (h, cs) =>
        match expectCh ':' cs with
        | none => none
        | some cs =>
          match read2 cs with
          | none => none
          | some (mi, cs) =>
            match expectCh ':' cs with
            | none => none
            | some cs =>
              match read2 cs with
              | none => none
              | some (s, cs) =>
                match skipFrac cs with
                | none => none
                | some cs =>
                  match readZone cs with
                  | none => none
                  | some (off, cs) =>
                    if cs = [] ∧ fieldsOk y mo d h mi s = true then
                      some (⟨y, mo, d, h, mi, s⟩, off)
                    else none

/-- Go `time.Parse` with layout `2006-01-02 15:04:05` (no zone; UTC). -/
def parseFullDT (cs : List Char) : Option DateTime :=
  match readDate cs with
  | none => none
  | some (y, mo, d, cs) =>
    match expectCh ' ' cs with
    | none => none
    | some cs =>
      match readHour cs with
      | none => none
      | some (h, cs) =>
        match expectCh ':' cs with
        | none => none
        | some cs =>
          match read2 cs with
          | none => none
          | some (mi, cs) =>
            match expectCh ':' cs with
            | none => none
            | some cs =>
              match read2 cs with
              | none => none
              | some (s, cs) =>
                match skipFrac cs with
                | none => none
                | some cs =>
                  if cs = [] ∧ fieldsOk y mo d h mi s = true then
                    some ⟨y, mo, d, h, mi, s⟩
                  else none

/-- Go `time.Parse` with layout `2006-01-02` (date only; midnight UTC). -/
def parseDateDT (cs : List Char) : Option DateTime :=
  match readDate cs with
  | none => none
  | some (y, mo, d, cs) =>
    if cs = [] ∧ fieldsOk y mo d 0 0 0 = true then some ⟨y, mo, d, 0, 0, 0⟩ else none

/-- The timestamp-normalization chain of `chartDataHandler`: try RFC 3339,
then `2006-01-02 15:04:05`, then `2006-01-02`; the result is the wall-clock
fields plus the zone offset (0 for the zoneless layouts). -/
def parseTimestamp (str : String) : Option (DateTime × Int) :=
  match parseRFC3339 str.data with
  | some r => some r
  | none =>
    match parseFullDT str.data with
    | some dt => some (dt, 0)
    | none =>
      match parseDateDT str.data with
      | some dt => some (dt, 0)
      | none => none

/-- The four period keywords of `chartDataHandler`'s `switch`; the `default`
arm reuses the `day` parameters. -/
inductive Period where
  | day
  | week
  | month
  | year
  deriving DecidableEq

/-- The `switch period` of `chartDataHandler`: any string other than the four
keywords selects the `default` arm, which is identical to `day`. -/
def periodOf (str : String) : Period :=
  if str = ("day" : String) then Period.day
  else if str = ("week" : String) then Period.week
  else if str = ("month" : String) then Period.month
  else if str = ("year" : String) then Period.year
  else Period.day

/-- One row of `temperature_readings`: a value and its store-assigned
`CURRENT_TIMESTAMP` (`id` is never read back and is omitted). -/
structure Reading where
  temp : ℚ
  ts : DateTime
  deriving DecidableEq

/-- Year carried by SQLite's `-1 month` modifier. -/
def prevMonthY (dt : DateTime) : Nat := if dt.mo = 1 then dt.y - 1 else dt.y

/-- Month carried by SQLite's `-1 month` modifier. -/
def prevMonthMo (dt : DateTime) : Nat := if dt.mo = 1 then 12 else dt.mo - 1

/-- The `WHERE timestamp >= datetime('now', <modifier>)` cutoff instant of each
period's query, in Unix seconds.  `-1 day` and `-7 days` are exact second
offsets; `-1 month` and `-1 year` decrement the calendar field and keep the
day-of-month, a date SQLite normalizes by julian-day arithmetic — which is the
linear-in-`d` extension that `daysFromCivilN` already performs (for example
`2024-02-31` denotes `2024-03-02`). -/
def cutoffSec : Period → DateTime → Int
  | Period.day, now => now.toSeconds - 86400
  | Period.week, now => now.toSeconds - 7 * 86400
  | Period.month, now =>
    DateTime.toSeconds ⟨prevMonthY now, prevMonthMo now, now.d, now.h, now.mi, now.s⟩
  | Period.year, now =>
    DateTime.toSeconds ⟨now.y - 1, now.mo, now.d, now.h, now.mi, now.s⟩

/-- The rows satisfying the query's `WHERE` clause.  SQLite compares the stored
text timestamps with the cutoff text byte-wise; for valid timestamps this is
chronological order, modelled through `toSeconds`. -/
def windowReadings (p : Period) (now : DateTime) (store : List Reading) : List Reading :=
  store.filter (fun r => decide (cutoffSec p now ≤ r.ts.toSeconds))

/-- SQLite `datetime(ts, 'start of hour')`. -/
def hourStart (dt : DateTime) : DateTime := ⟨dt.y, dt.mo, dt.d, dt.h, 0, 0⟩

/-- SQLite `date(ts)` read back as a midnight instant. -/
def dayStart (dt : DateTime) : DateTime := ⟨dt.y, dt.mo, dt.d, 0, 0, 0⟩

/-- SQLite `date(ts, 'start of month')`. -/
def monthStart (dt : DateTime) : DateTime := ⟨dt.y, dt.mo, 1, 0, 0, 0⟩

/-- The `GROUP BY` key of each period's query (`day` has no grouping; its
"bucket" is the raw timestamp). -/
def bucketOf : Period → DateTime → DateTime
  | Period.day, dt => dt
  | Period.week, dt => hourStart dt
  | Period.month, dt => dayStart dt
  | Period.year, dt => monthStart dt

/-- Text of the selected timestamp column: `datetime(...)` renders a full
datetime, `date(...)` a date. -/
def bucketRender : Period → DateTime → String
  | Period.day, dt => renderFull dt
  | Period.week, dt => renderFull dt
  | Period.month, dt => renderDateOnly dt
  | Period.year, dt => renderDateOnly dt

/-- Sort by an integer key (the `ORDER BY timestamp` of every query; for the
aggregated queries `timestamp` names the selected bucket alias). -/
def sortByKey {α : Type} (key : α → Int) (l : List α) : List α :=
  List.insertionSort (fun a b => key a ≤ key b) l

/-- Arithmetic mean, SQLite `AVG`. -/
def listMean (l : List ℚ) : ℚ := l.sum / l.length

/-- Temperatures of the in-window readings falling in bucket `k`. -/
def bucketTemps (p : Period) (now : DateTime) (store : List Reading) (k : DateTime) : List ℚ :=
  ((windowReadings p now store).filter (fun r => bucketOf p r.ts = k)).map Reading.temp

/-- `AVG(temperature)` of bucket `k`. -/
def bucketMean (p : Period) (now : DateTime) (store : List Reading) (k : DateTime) : ℚ :=
  listMean (bucketTemps p now store k)

/-- The distinct `GROUP BY` keys occurring among in-window readings. -/
def bucketsOf (p : Period) (now : DateTime) (store : List Reading) : List DateTime :=
  ((windowReadings p now store).map (fun r => bucketOf p r.ts)).dedup

/-- The distinct bucket keys in `ORDER BY` order. -/
def sortedBuckets (p : Period) (now : DateTime) (store : List Reading) : List DateTime :=
  sortByKey DateTime.toSeconds (bucketsOf p now store)

/-- Result rows of the period's SQL query, as `(temperature, timestamp text)`
pairs in `ORDER BY` order: raw in-window rows for `day`, one averaged row per
distinct bucket for the aggregated periods. -/
def sqlRows : Period → DateTime → List Reading → List (ℚ × String)
  | Period.day, now, store =>
    (sortByKey (fun r => r.ts.toSeconds) (windowReadings Period.day now store)).map
      (fun r => (r.temp, renderFull r.ts))
  | p, now, store =>
    (sortedBuckets p now store).map
      (fun k => (bucketMean p now store k, bucketRender p k))

/-- Go layout `15:04`. -/
def fmtHM (dt : DateTime) : String := String.mk (pad2 dt.h ++ ':' :: pad2 dt.mi)

/-- Go layout `01-02 15:04`. -/
def fmtMDHM (dt : DateTime) : String :=
  String.mk (pad2 dt.mo ++ '-' :: pad2 dt.d ++ ' ' :: pad2 dt.h ++ ':' :: pad2 dt.mi)

/-- Go layout `01-02`. -/
def fmtMD (dt : DateTime) : String := String.mk (pad2 dt.mo ++ '-' :: pad2 dt.d)

/-- Go layout `2006-01`. -/
def fmtYM (dt : DateTime) : String := String.mk (pad4 dt.y ++ '-' :: pad2 dt.mo)

/-- The `timeFormat` chosen alongside each query. -/
def formatTime : Period → DateTime → String
  | Period.day, dt => fmtHM dt
  | Period.week, dt => fmtMDHM dt
  | Period.month, dt => fmtMD dt
  | Period.year, dt => fmtYM dt

/-- One JSON element written by `chartDataHandler`. -/
structure ChartDataPoint where
  temperature : ℚ
  timestamp : String
  unixTime : Int
  deriving DecidableEq

/-- The row loop of `chartDataHandler`: parse each row's timestamp through
`parseTimestamp`; on failure `continue` (the row is skipped and, as in the
source, no log line is emitted); on success append a formatted point whose
`unixTime` is the parsed instant's Unix seconds (wall fields minus the zone
offset).  The second component collects the log lines emitted inside the
loop — there are none on any path. -/
def processRows (p : Period) : List (ℚ × String) → List ChartDataPoint × List String
  | [] => ([], [])
  | row :: rest =>
    let acc := processRows p rest
    match parseTimestamp row.2 with
    | none => acc
    | some r => (⟨row.1, formatTime p r.1, r.1.toSeconds - r.2⟩ :: acc.1, acc.2)

/-- JSON values, enough to state what the handlers encode. -/
inductive Json where
  | null
  | num (q : ℚ)
  | str (s : String)
  | arr (elems : List Json)
  | obj (fields : List (String × Json))

/-- Whether a JSON value is an array. -/
def Json.isArr : Json → Bool
  | Json.arr _ => true
  | _ => false

/-- Encoding of one chart point. -/
def pointJson (pt : ChartDataPoint) : Json :=
  Json.obj [(("temperature" : String), Json.num pt.temperature),
    (("timestamp" : String), Json.str pt.timestamp),
    (("unixTime" : String), Json.num (pt.unixTime : ℚ))]

/-- `json.NewEncoder(w).Encode(data)` where `data` is the Go slice built by
the row loop: `var data []ChartDataPoint` declares a nil slice and `append`
makes it non-nil, so zero appended points encode as the JSON literal `null`,
one or more as a JSON array. -/
def encodeChartData (pts : List ChartDataPoint) : Json :=
  if pts.isEmpty then Json.null else Json.arr (pts.map pointJson)

/-- Body of an HTTP response: a JSON document or the plain text written by
`http.Error`. -/
inductive Body where
  | json (j : Json)
  | text (msg : String)

/-- An HTTP response as observed by the client. -/
structure HttpResponse where
  status : Nat
  body : Body

/-- The points `chartDataHandler` accumulates for a given period, query
time and store contents. -/
def chartPoints (p : Period) (now : DateTime) (store : List Reading) : List ChartDataPoint :=
  (processRows p (sqlRows p now store)).1

/-- `chartDataHandler`: empty period defaults to `day`; `db.Query` failure
(`dbOk = false`, an environmental outcome) returns 500 with a plain-text
message; otherwise the modelled query rows are looped over and the resulting
slice is encoded with status 200. -/
def chartDataHandler (periodStr : String) (now : DateTime) (store : List Reading)
  (dbOk : Bool) : HttpResponse × List String :=
  let pstr := if periodStr = ("" : String) then ("day" : String) else periodStr
  let p := periodOf pstr
  if dbOk then
    let res := processRows p (sqlRows p now store)
    ({ status := 200, body := Body.json (encodeChartData res.1) }, res.2)
  else
    ({ status := 500, body := Body.text ("Error querying database") }, [])

/-- Go `strings.TrimSpace`. -/
def trimSpace (cs : List Char) : List Char :=
  ((cs.dropWhile Char.isWhitespace).reverse.dropWhile Char.isWhitespace).reverse

/-- Decimal value of a digit string. -/
def digitsVal (cs : List Char) : Nat := cs.foldl (fun acc c => 10 * acc + chVal c) 0

/-- Digits-only body of `strconv.Atoi`: nonempty and all decimal digits. -/
def atoiNat (cs : List Char) : Option Nat :=
  if cs ≠ [] ∧ cs.all Char.isDigit = true then some (digitsVal cs) else none

/-- Go `strconv.Atoi` on a 64-bit platform: optional sign, decimal digits,
error on empty input, a non-digit, or overflow of `int64`. -/
def atoi (cs : List Char) : Option Int :=
  match cs with
  | '+' :: rest =>
    match atoiNat rest with
    | some n => if n ≤ 9223372036854775807 then some (n : Int) else none
    | none => none
  | '-' :: rest =>
    match atoiNat rest with
    | some n => if n ≤ 9223372036854775808 then some (-(n : Int)) else none
    | none => none
  | other =>
    match atoiNat other with
    | some n => if n ≤ 9223372036854775807 then some (n : Int) else none
    | none => none

/-- The synthetic value of `getTemperature` before clamping: baseline plus
minute-of-hour sawtooth plus millisecond-derived noise.  `sec` and `unixNano`
are the results of the two `time.Now()` calls (`Unix()` and `UnixNano()`);
Go's `%` and `/` on `int64` truncate toward zero. -/
def rawTemp (sec unixNano : Int) : ℚ :=
  let baseTemp : ℚ := 55
  let variation : ℚ := 10 * (1 / 2 - ((Int.tmod sec 60 : Int) : ℚ) / 60)
  let noise : ℚ := ((Int.tmod (Int.tdiv unixNano 1000000) 10 - 5 : Int) : ℚ) * (1 / 5)
  baseTemp + variation + noise

/-- The synthetic value after the two clamp branches (`< 40` then `> 80`). -/
def syntheticTemp (sec unixNano : Int) : ℚ :=
  let t := rawTemp sec unixNano
  let t1 := if t < 40 then (40 : ℚ) else t
  if t1 > 80 then (80 : ℚ) else t1

/-- `getTemperature`: the thermal-zone file's contents when readable
(`sensorData = some data`), trimmed and parsed as milli-degrees; on any read
or parse failure the synthetic fallback is used.  The second component is
whether a non-nil error is returned — never, on any path. -/
def getTemperature (sensorData : Option String) (sec unixNano : Int) : ℚ × Bool :=
  match sensorData with
  | some data =>
    match atoi (trimSpace data.data) with
    | some n => ((n : ℚ) / 1000, false)
    | none => (syntheticTemp sec unixNano, false)
  | none => (syntheticTemp sec unixNano, false)

/-- `temperatureHandler`: read the sensor (500 only if that errs, which it
cannot), attempt the insert (`saveOk` is the insert's environmental outcome;
failure is only logged), then answer 200 with the reading and the current
time formatted `2006-01-02 15:04:05`. -/
def temperatureHandler (sensorData : Option String) (sec unixNano : Int) (saveOk : Bool)
  (now : DateTime) : HttpResponse × List String :=
  let res := getTemperature sensorData sec unixNano
  if res.2 then
    ({ status := 500, body := Body.text ("Error reading temperature") }, [])
  else
    let logs := if saveOk then ([] : List String)
      else [("Error saving temperature to database" : String)]
    ({ status := 200,
       body := Body.json (Json.obj [(("temperature" : String), Json.num res.1),
         (("timestamp" : String), Json.str (renderFull now))]) }, logs)

/-- Unfolding of the validity predicate into its component bounds. -/
theorem isValid_iff (dt : DateTime) : dt.isValid = true ↔
    1 ≤ dt.y ∧ dt.y ≤ 9999 ∧ 1 ≤ dt.mo ∧ dt.mo ≤ 12 ∧ 1 ≤ dt.d ∧
      dt.d ≤ daysInMonth dt.y dt.mo ∧ dt.h ≤ 23 ∧ dt.mi ≤ 59 ∧ dt.s ≤ 59 := by
  simp [DateTime.isValid, Bool.and_eq_true, decide_eq_true_eq, and_assoc]

/-- Every month has at most 31 days. -/
theorem daysInMonth_le (y mo : Nat) : daysInMonth y mo ≤ 31 := by
  unfold daysInMonth
  split_ifs <;> omega

/-- Every month has at least 28 days. -/
theorem daysInMonth_ge (y mo : Nat) : 28 ≤ daysInMonth y mo := by
  unfold daysInMonth
  split_ifs <;> omega

/-- A digit character renders as a digit. -/
theorem digitCh_isDigit (n : Nat) (h : n < 10) : (digitCh n).isDigit = true := by
  interval_cases n <;> decide

/-- Reading back the value of a digit character. -/
theorem chVal_digitCh (n : Nat) (h : n < 10) : chVal (digitCh n) = n := by
  interval_cases n <;> decide

/-- `read2` inverts `pad2`. -/
theorem read2_pad2 (n : Nat) (h : n ≤ 99) (rest : List Char) :
    read2 (pad2 n ++ rest) = some (n, rest) := by
  have h1 : n / 10 < 10 := by omega
  have h2 : n % 10 < 10 := by omega
  simp only [pad2, List.cons_append, List.nil_append, read2,
    digitCh_isDigit _ h1, digitCh_isDigit _ h2, Bool.and_self, if_true,
    chVal_digitCh _ h1, chVal_digitCh _ h2, Option.some.injEq, Prod.mk.injEq, and_true]
  omega

/-- `readHour` inverts `pad2` (it takes both digits). -/
theorem readHour_pad2 (n : Nat) (h : n ≤ 99) (rest : List Char) :
    readHour (pad2 n ++ rest) = some (n, rest) := by
  have h1 : n / 10 < 10 := by omega
  have h2 : n % 10 < 10 := by omega
  simp only [pad2, List.cons_append, List.nil_append, readHour,
    digitCh_isDigit _ h1, digitCh_isDigit _ h2, if_true,
    chVal_digitCh _ h1, chVal_digitCh _ h2, Option.some.injEq, Prod.mk.injEq, and_true]
  omega

/-- `read4` inverts `pad4`. -/
theorem read4_pad4 (n : Nat) (h : n ≤ 9999) (rest : List Char) :
    read4 (pad4 n ++ rest) = some (n, rest) := by
  have h1 : n / 1000 < 10 := by omega
  have h2 : n / 100 % 10 < 10 := by omega
  have h3 : n / 10 % 10 < 10 := by omega
  have h4 : n % 10 < 10 := by omega
  simp only [pad4, List.cons_append, List.nil_append, read4,
    digitCh_isDigit _ h1, digitCh_isDigit _ h2, digitCh_isDigit _ h3, digitCh_isDigit _ h4,
    Bool.and_self, if_true, chVal_digitCh _ h1, chVal_digitCh _ h2, chVal_digitCh _ h3,
    chVal_digitCh _ h4, Option.some.injEq, Prod.mk.injEq, and_true]
  omega

/-- Matching the expected literal. -/
theorem expectCh_self (c : Char) (rest : List Char) : expectCh c (c :: rest) = some rest := by
  simp [expectCh]

/-- Failing on a different literal. -/
theorem expectCh_ne (c x : Char) (h : x ≠ c) (rest : List Char) :
    expectCh c (x :: rest) = none := by
  simp [expectCh, h]

/-- `readDate` inverts the date rendering, leaving the tail untouched. -/
theorem readDate_render (dt : DateTime) (hv : dt.isValid = true) (rest : List Char) :
    readDate (renderDateCh dt ++ rest) = some (dt.y, dt.mo, dt.d, rest) := by
  obtain ⟨h1, h2, h3, h4, h5, h6, _⟩ := (isValid_iff dt).1 hv
  have hd : dt.d ≤ 31 := le_trans h6 (daysInMonth_le dt.y dt.mo)
  unfold readDate
  rw [show renderDateCh dt ++ rest
      = pad4 dt.y ++ ('-' :: (pad2 dt.mo ++ ('-' :: (pad2 dt.d ++ rest)))) by
    simp [renderDateCh]]
  rw [read4_pad4 dt.y (by omega)]
  simp only [expectCh_self, read2_pad2 dt.mo (by omega), read2_pad2 dt.d (by omega)]

/-- Go's range validation accepts every valid date-time. -/
theorem fieldsOk_of_isValid (dt : DateTime) (hv : dt.isValid = true) :
    fieldsOk dt.y dt.mo dt.d dt.h dt.mi dt.s = true := by
  obtain ⟨h1, h2, h3, h4, h5, h6, h7, h8, h9⟩ := (isValid_iff dt).1 hv
  simp only [fieldsOk, Bool.and_eq_true, decide_eq_true_eq]
  omega

/-- Go's range validation accepts the date part of a valid date-time at
midnight. -/
theorem fieldsOk_zero_time (dt : DateTime) (hv : dt.isValid = true) :
    fieldsOk dt.y dt.mo dt.d 0 0 0 = true := by
  obtain ⟨h1, h2, h3, h4, h5, h6, h7, h8, h9⟩ := (isValid_iff dt).1 hv
  simp only [fieldsOk, Bool.and_eq_true, decide_eq_true_eq]
  omega

/-- The plain-datetime layout parses back exactly what `renderFull` printed. -/
theorem parseFullDT_renderFull (dt : DateTime) (hv : dt.isValid = true) :
    parseFullDT (renderFull dt).data = some dt := by
  obtain ⟨h1, h2, h3, h4, h5, h6, h7, h8, h9⟩ := (isValid_iff dt).1 hv
  have hdata : (renderFull dt).data
      = renderDateCh dt
        ++ (' ' :: (pad2 dt.h ++ (':' :: (pad2 dt.mi ++ (':' :: (pad2 dt.s ++ ([] : List Char))))))) := by
    simp [renderFull, renderTimeCh]
  unfold parseFullDT
  rw [hdata, readDate_render dt hv]
  simp only [expectCh_self, readHour_pad2 dt.h (by omega), read2_pad2 dt.mi (by omega),
    read2_pad2 dt.s (by omega)]
  simp [skipFrac, fieldsOk_of_isValid dt hv]

/-- The RFC 3339 layout rejects the space-separated rendering (the literal
`T` does not match the space). -/
theorem parseRFC3339_renderFull (dt : DateTime) (hv : dt.isValid = true) :
    parseRFC3339 (renderFull dt).data = none := by
  have hdata : (renderFull dt).data = renderDateCh dt ++ (' ' :: renderTimeCh dt) := by
    simp [renderFull]
  unfold parseRFC3339
  rw [hdata, readDate_render dt hv]
  simp [expectCh_ne 'T' ' ' (by decide)]

/-- The RFC 3339 layout rejects a date-only rendering (input ends before `T`). -/
theorem parseRFC3339_renderDateOnly (dt : DateTime) (hv : dt.isValid = true) :
    parseRFC3339 (renderDateOnly dt).data = none := by
  have hdata : (renderDateOnly dt).data = renderDateCh dt ++ ([] : List Char) := by
    simp [renderDateOnly]
  unfold parseRFC3339
  rw [hdata, readDate_render dt hv]
  simp [expectCh]

/-- The plain-datetime layout rejects a date-only rendering (input ends
before the space). -/
theorem parseFullDT_renderDateOnly (dt : DateTime) (hv : dt.isValid = true) :
    parseFullDT (renderDateOnly dt).data = none := by
  have hdata : (renderDateOnly dt).data = renderDateCh dt ++ ([] : List Char) := by
    simp [renderDateOnly]
  unfold parseFullDT
  rw [hdata, readDate_render dt hv]
  simp [expectCh]

/-- The date-only layout parses back what `renderDateOnly` printed, at
midnight. -/
theorem parseDateDT_renderDateOnly (dt : DateTime) (hv : dt.isValid = true) :
    parseDateDT (renderDateOnly dt).data = some ⟨dt.y, dt.mo, dt.d, 0, 0, 0⟩ := by
  have hdata : (renderDateOnly dt).data = renderDateCh dt ++ ([] : List Char) := by
    simp [renderDateOnly]
  unfold parseDateDT
  rw [hdata, readDate_render dt hv]
  simp [fieldsOk_zero_time dt hv]

/-- The normalization chain maps a stored full timestamp to itself with a
zero zone offset. -/
theorem parseTimestamp_renderFull (dt : DateTime) (hv : dt.isValid = true) :
    parseTimestamp (renderFull dt) = some (dt, 0) := by
  unfold parseTimestamp
  rw [parseRFC3339_renderFull dt hv]
  rw [parseFullDT_renderFull dt hv]

/-- The normalization chain maps a stored date-only timestamp to its
midnight instant with a zero zone offset. -/
theorem parseTimestamp_renderDateOnly (dt : DateTime) (hv : dt.isValid = true) :
    parseTimestamp (renderDateOnly dt) = some (⟨dt.y, dt.mo, dt.d, 0, 0, 0⟩, 0) := by
  unfold parseTimestamp
  rw [parseRFC3339_renderDateOnly dt hv]
  rw [parseFullDT_renderDateOnly dt hv]
  rw [parseDateDT_renderDateOnly dt hv]

/-- Truncating to the start of the hour preserves validity. -/
theorem hourStart_isValid (dt : DateTime) (hv : dt.isValid = true) :
    (hourStart dt).isValid = true := by
  obtain ⟨h1, h2, h3, h4, h5, h6, h7, h8, h9⟩ := (isValid_iff dt).1 hv
  simp only [isValid_iff, hourStart]
  omega

/-- Truncating to the start of the day preserves validity. -/
theorem dayStart_isValid (dt : DateTime) (hv : dt.isValid = true) :
    (dayStart dt).isValid = true := by
  obtain ⟨h1, h2, h3, h4, h5, h6, h7, h8, h9⟩ := (isValid_iff dt).1 hv
  simp only [isValid_iff, dayStart]
  omega

/-- Truncating to the first of the month preserves validity. -/
theorem monthStart_isValid (dt : DateTime) (hv : dt.isValid = true) :
    (monthStart dt).isValid = true := by
  obtain ⟨h1, h2, h3, h4, h5, h6, h7, h8, h9⟩ := (isValid_iff dt).1 hv
  have h28 := daysInMonth_ge dt.y dt.mo
  simp only [isValid_iff, monthStart]
  omega

/-- Every period's bucket of a valid timestamp is valid. -/
theorem bucketOf_isValid (p : Period) (dt : DateTime) (hv : dt.isValid = true) :
    (bucketOf p dt).isValid = true := by
  cases p
  case day => exact hv
  case week => exact hourStart_isValid dt hv
  case month => exact dayStart_isValid dt hv
  case year => exact monthStart_isValid dt hv

/-- `ORDER BY` produces a key-sorted sequence. -/
theorem sortByKey_sorted {α : Type} (key : α → Int) (l : List α) :
    List.Sorted (fun a b => key a ≤ key b) (sortByKey key l) := by
  haveI : IsTotal α (fun a b => key a ≤ key b) := ⟨fun a b => le_total (key a) (key b)⟩
  haveI : IsTrans α (fun a b => key a ≤ key b) :=
    ⟨fun a b c hab hbc => le_trans hab hbc⟩
  exact List.sorted_insertionSort _ _

/-- Sorting permutes and keeps exactly the input rows. -/
theorem sortByKey_perm {α : Type} (key : α → Int) (l : List α) :
    (sortByKey key l).Perm l := List.perm_insertionSort _ _

/-- Membership is invariant under the sort. -/
theorem mem_sortByKey {α : Type} (key : α → Int) (l : List α) (x : α) :
    x ∈ sortByKey key l ↔ x ∈ l := (sortByKey_perm key l).mem_iff

/-- The row loop emits no log line on any input. -/
theorem processRows_logs (p : Period) (l : List (ℚ × String)) :
    (processRows p l).2 = [] := by
  induction l with
  | nil => rfl
  | cons row rest ih =>
    simp only [processRows]
    cases hp : parseTimestamp row.2 <;> simp [hp, ih]

/-- When every fed row's timestamp text parses (to `g a` with zero offset),
the row loop is exactly a map producing formatted points. -/
theorem processRows_map {α : Type} (p : Period) (f : α → ℚ × String) (g : α → DateTime)
    (l : List α) (h : ∀ a ∈ l, parseTimestamp (f a).2 = some (g a, 0)) :
    processRows p (l.map f)
      = (l.map (fun a => ⟨(f a).1, formatTime p (g a), (g a).toSeconds⟩),
          ([] : List String)) := by
  induction l with
  | nil => rfl
  | cons a rest ih =>
    have ha := h a (List.mem_cons_self a rest)
    have ih' := ih (fun b hb => h b (List.mem_cons_of_mem a hb))
    simp only [List.map_cons, processRows, ih', ha]
    simp

/-- The distinct buckets are exactly the buckets of in-window readings. -/
theorem mem_bucketsOf (p : Period) (now : DateTime) (store : List Reading) (k : DateTime) :
    k ∈ bucketsOf p now store
      ↔ ∃ r ∈ store, cutoffSec p now ≤ r.ts.toSeconds ∧ bucketOf p r.ts = k := by
  simp [bucketsOf, windowReadings, List.mem_dedup, List.mem_map, List.mem_filter,
    decide_eq_true_eq, and_assoc]

/-- A sorted bucket comes from some in-window reading of the store. -/
theorem mem_sortedBuckets (p : Period) (now : DateTime) (store : List Reading) (k : DateTime)
    (hk : k ∈ sortedBuckets p now store) :
    ∃ r ∈ store, cutoffSec p now ≤ r.ts.toSeconds ∧ bucketOf p r.ts = k :=
  (mem_bucketsOf p now store k).1 ((mem_sortByKey _ _ k).1 hk)

/-- For the `day` period the handler's points are the sorted in-window
readings themselves, each carrying its own instant. -/
theorem chartPoints_day (now : DateTime) (store : List Reading)
    (hv : ∀ r ∈ store, r.ts.isValid = true) :
    chartPoints Period.day now store
      = (sortByKey (fun r => r.ts.toSeconds) (windowReadings Period.day now store)).map
          (fun r => ⟨r.temp, formatTime Period.day r.ts, r.ts.toSeconds⟩) := by
  have hparse : ∀ r ∈ sortByKey (fun r : Reading => r.ts.toSeconds)
      (windowReadings Period.day now store),
      parseTimestamp ((fun r : Reading => (r.temp, renderFull r.ts)) r).2
        = some ((fun r : Reading => r.ts) r, 0) := by
    intro r hr
    exact parseTimestamp_renderFull r.ts
      (hv r (List.mem_filter.1 ((mem_sortByKey _ _ r).1 hr)).1)
  unfold chartPoints sqlRows
  rw [processRows_map Period.day _ _ _ hparse]

/-- For the `week` period the handler's points are the sorted hour buckets
with their averages. -/
theorem chartPoints_week (now : DateTime) (store : List Reading)
    (hv : ∀ r ∈ store, r.ts.isValid = true) :
    chartPoints Period.week now store
      = (sortedBuckets Period.week now store).map
          (fun k => ⟨bucketMean Period.week now store k, formatTime Period.week k,
            k.toSeconds⟩) := by
  have hparse : ∀ k ∈ sortedBuckets Period.week now store,
      parseTimestamp ((fun k => (bucketMean Period.week now store k,
        bucketRender Period.week k)) k).2 = some ((fun k : DateTime => k) k, 0) := by
    intro k hk
    obtain ⟨r, hr, _, hbk⟩ := mem_sortedBuckets Period.week now store k hk
    rw [← hbk]
    exact parseTimestamp_renderFull _ (hourStart_isValid r.ts (hv r hr))
  unfold chartPoints sqlRows
  rw [processRows_map Period.week _ _ _ hparse]

/-- For the `month` period the handler's points are the sorted day buckets
with their averages. -/
theorem chartPoints_month (now : DateTime) (store : List Reading)
    (hv : ∀ r ∈ store, r.ts.isValid = true) :
    chartPoints Period.month now store
      = (sortedBuckets Period.month now store).map
          (fun k => ⟨bucketMean Period.month now store k, formatTime Period.month k,
            k.toSeconds⟩) := by
  have hparse : ∀ k ∈ sortedBuckets Period.month now store,
      parseTimestamp ((fun k => (bucketMean Period.month now store k,
        bucketRender Period.month k)) k).2 = some ((fun k : DateTime => k) k, 0) := by
    intro k hk
    obtain ⟨r, hr, _, hbk⟩ := mem_sortedBuckets Period.month now store k hk
    rw [← hbk]
    exact parseTimestamp_renderDateOnly _ (dayStart_isValid r.ts (hv r hr))
  unfold chartPoints sqlRows
  rw [processRows_map Period.month _ _ _ hparse]

/-- For the `year` period the handler's points are the sorted month buckets
with their averages. -/
theorem chartPoints_year (now : DateTime) (store : List Reading)
    (hv : ∀ r ∈ store, r.ts.isValid = true) :
    chartPoints Period.year now store
      = (sortedBuckets Period.year now store).map
          (fun k => ⟨bucketMean Period.year now store k, formatTime Period.year k,
            k.toSeconds⟩) := by
  have hparse : ∀ k ∈ sortedBuckets Period.year now store,
      parseTimestamp ((fun k => (bucketMean Period.year now store k,
        bucketRender Period.year k)) k).2 = some ((fun k : DateTime => k) k, 0) := by
    intro k hk
    obtain ⟨r, hr, _, hbk⟩ := mem_sortedBuckets Period.year now store k hk
    rw [← hbk]
    exact parseTimestamp_renderDateOnly _ (monthStart_isValid r.ts (hv r hr))
  unfold chartPoints sqlRows
  rw [processRows_map Period.year _ _ _ hparse]

/-- The three aggregated periods share the bucket/mean shape. -/
theorem chartPoints_agg (p : Period)
    (hp : p = Period.week ∨ p = Period.month ∨ p = Period.year)
    (now : DateTime) (store : List Reading)
    (hv : ∀ r ∈ store, r.ts.isValid = true) :
    chartPoints p now store
      = (sortedBuckets p now store).map
          (fun k => ⟨bucketMean p now store k, formatTime p k, k.toSeconds⟩) := by
  rcases hp with rfl | rfl | rfl
  · exact chartPoints_week now store hv
  · exact chartPoints_month now store hv
  · exact chartPoints_year now store hv

/-- Claim C1: for the aggregated periods (`week`/`month`/`year`) the
chart-data result has exactly one point per distinct bucket containing at
least one in-window reading (as many points as distinct buckets, with the
buckets characterized below), and the points' values are exactly the
arithmetic means (`bucketMean`) of the readings of the corresponding
buckets in `ORDER BY` order. -/
theorem C1_aggregated_bucket_means (p : Period)
    (hp : p = Period.week ∨ p = Period.month ∨ p = Period.year)
    (now : DateTime) (store : List Reading)
    (hv : ∀ r ∈ store, r.ts.isValid = true) :
    (chartPoints p now store).map ChartDataPoint.temperature
        = (sortedBuckets p now store).map (bucketMean p now store)
      ∧ (chartPoints p now store).length = (bucketsOf p now store).length
      ∧ (bucketsOf p now store).Nodup
      ∧ ∀ k, k ∈ bucketsOf p now store
          ↔ ∃ r ∈ store, cutoffSec p now ≤ r.ts.toSeconds ∧ bucketOf p r.ts = k := by
  refine ⟨?_, ?_, List.nodup_dedup _, fun k => mem_bucketsOf p now store k⟩
  · rw [chartPoints_agg p hp now store hv, List.map_map]
    rfl
  · rw [chartPoints_agg p hp now store hv, List.length_map]
    exact (sortByKey_perm _ _).length_eq

/-- Witness for C1: two readings of 50.0 and 60.0 in the same hour under the
`week` period yield a single bucket whose value is 55.0. -/
theorem C1_aggregated_bucket_means_witness :
    (∀ r ∈ ([⟨50, ⟨2024, 3, 30, 10, 15, 0⟩⟩,
        ⟨60, ⟨2024, 3, 30, 10, 45, 0⟩⟩] : List Reading), r.ts.isValid = true)
      ∧ (chartPoints Period.week ⟨2024, 3, 31, 12, 0, 0⟩
          [⟨50, ⟨2024, 3, 30, 10, 15, 0⟩⟩, ⟨60, ⟨2024, 3, 30, 10, 45, 0⟩⟩]).map
            ChartDataPoint.temperature = [55] := by
  constructor
  · decide
  · have h := (C1_aggregated_bucket_means Period.week (Or.inl rfl) ⟨2024, 3, 31, 12, 0, 0⟩
      [⟨50, ⟨2024, 3, 30, 10, 15, 0⟩⟩, ⟨60, ⟨2024, 3, 30, 10, 45, 0⟩⟩] (by decide)).1
    rw [h]
    rw [(by decide : sortedBuckets Period.week ⟨2024, 3, 31, 12, 0, 0⟩
        [⟨50, ⟨2024, 3, 30, 10, 15, 0⟩⟩, ⟨60, ⟨2024, 3, 30, 10, 45, 0⟩⟩]
        = [⟨2024, 3, 30, 10, 0, 0⟩])]
    have hbm : bucketMean Period.week ⟨2024, 3, 31, 12, 0, 0⟩
        [⟨50, ⟨2024, 3, 30, 10, 15, 0⟩⟩, ⟨60, ⟨2024, 3, 30, 10, 45, 0⟩⟩]
        ⟨2024, 3, 30, 10, 0, 0⟩ = 55 := by
      unfold bucketMean
      rw [(by decide : bucketTemps Period.week ⟨2024, 3, 31, 12, 0, 0⟩
          [⟨50, ⟨2024, 3, 30, 10, 15, 0⟩⟩, ⟨60, ⟨2024, 3, 30, 10, 45, 0⟩⟩]
          ⟨2024, 3, 30, 10, 0, 0⟩ = [50, 60])]
      norm_num [listMean]
    simp [hbm]

/-- Claim C2: for every supported period and every (valid-timestamped) store
contents, the returned point sequence is in non-decreasing timestamp order. -/
theorem C2_points_sorted (p : Period) (now : DateTime) (store : List Reading)
    (hv : ∀ r ∈ store, r.ts.isValid = true) :
    List.Sorted (fun a b => a.unixTime ≤ b.unixTime) (chartPoints p now store) := by
  cases p
  case day =>
    rw [chartPoints_day now store hv]
    exact List.Pairwise.map _ (fun a b hab => hab)
      (sortByKey_sorted (fun r : Reading => r.ts.toSeconds) _)
  case week =>
    rw [chartPoints_week now store hv]
    exact List.Pairwise.map _ (fun a b hab => hab) (sortByKey_sorted DateTime.toSeconds _)
  case month =>
    rw [chartPoints_month now store hv]
    exact List.Pairwise.map _ (fun a b hab => hab) (sortByKey_sorted DateTime.toSeconds _)
  case year =>
    rw [chartPoints_year now store hv]
    exact List.Pairwise.map _ (fun a b hab => hab) (sortByKey_sorted DateTime.toSeconds _)

/-- Witness for C2 at a concrete out-of-order store under the `day` period. -/
theorem C2_points_sorted_witness :
    (∀ r ∈ ([⟨50, ⟨2024, 3, 31, 10, 15, 0⟩⟩,
        ⟨60, ⟨2024, 3, 30, 23, 45, 0⟩⟩] : List Reading), r.ts.isValid = true)
      ∧ List.Sorted (fun a b => a.unixTime ≤ b.unixTime)
          (chartPoints Period.day ⟨2024, 3, 31, 12, 0, 0⟩
            [⟨50, ⟨2024, 3, 31, 10, 15, 0⟩⟩, ⟨60, ⟨2024, 3, 30, 23, 45, 0⟩⟩]) :=
  ⟨by decide, C2_points_sorted Period.day ⟨2024, 3, 31, 12, 0, 0⟩ _ (by decide)⟩

/-- Claim C3: every period string outside the four keywords (the empty
string among them) makes the chart-data endpoint behave exactly as
period `day`, whatever the store contents and query outcome. -/
theorem C3_unknown_period_is_day (pstr : String)
    (h : pstr ∉ ([("day" : String), ("week" : String), ("month" : String),
      ("year" : String)] : List String))
    (now : DateTime) (store : List Reading) (dbOk : Bool) :
    chartDataHandler pstr now store dbOk
      = chartDataHandler ("day" : String) now store dbOk := by
  simp only [List.mem_cons, List.mem_singleton, not_or] at h
  obtain ⟨hd, hw, hm, hy, -⟩ := h
  have h1 : periodOf (if pstr = ("" : String) then ("day" : String) else pstr)
      = Period.day := by
    by_cases he : pstr = ("" : String)
    · simp [he, periodOf]
    · simp [he, periodOf, hd, hw, hm, hy]
  have h2 : periodOf (if ("day" : String) = ("" : String) then ("day" : String)
      else ("day" : String)) = Period.day := by
    simp [periodOf]
  unfold chartDataHandler
  dsimp only
  rw [h1, h2]

/-- Witness for C3: the period string `decade` behaves as `day`. -/
theorem C3_unknown_period_is_day_witness :
    ("decade" : String) ∉ ([("day" : String), ("week" : String), ("month" : String),
        ("year" : String)] : List String)
      ∧ chartDataHandler ("decade" : String) ⟨2024, 3, 31, 12, 0, 0⟩
          [⟨50, ⟨2024, 3, 31, 10, 15, 0⟩⟩] true
        = chartDataHandler ("day" : String) ⟨2024, 3, 31, 12, 0, 0⟩
          [⟨50, ⟨2024, 3, 31, 10, 15, 0⟩⟩] true :=
  ⟨by decide, C3_unknown_period_is_day ("decade" : String) (by decide) _ _ _⟩

/-- Claim C4 (code-bug evaluation): with no qualifying rows the chart-data
endpoint does answer 200, but the body it encodes is the JSON literal `null`
— not an array — because the Go slice `data` is still nil when nothing was
appended.  The documented behaviour (a possibly-empty JSON array) differs
exactly there; the page's own script calls `.map` on this body and would
throw on `null`. -/
theorem C4_empty_result_encodes_null :
    (chartDataHandler ("day" : String) ⟨2024, 3, 31, 12, 0, 0⟩ [] true).1.status = 200
      ∧ (chartDataHandler ("day" : String) ⟨2024, 3, 31, 12, 0, 0⟩ [] true).1.body
          = Body.json Json.null
      ∧ Json.isArr Json.null = false :=
  ⟨rfl, rfl, rfl⟩

/-- `getTemperature` returns a nil error on every path. -/
theorem getTemperature_no_error (sensorData : Option String) (sec unixNano : Int) :
    (getTemperature sensorData sec unixNano).2 = false := by
  cases sensorData with
  | none => rfl
  | some data =>
    show (match atoi (trimSpace data.data) with
      | some n => ((n : ℚ) / 1000, false)
      | none => (syntheticTemp sec unixNano, false)).2 = false
    cases atoi (trimSpace data.data) <;> rfl

/-- Claim C5 counterexample: a row whose timestamp no layout parses is
dropped (first conjunct), yet the loop writes no log line at all (second
conjunct) — the claim's "and logged" is false of the silent `continue`. -/
theorem C5_counterexample :
    (processRows Period.day [((50 : ℚ), ("bogus" : String))]).1 = []
      ∧ (processRows Period.day [((50 : ℚ), ("bogus" : String))]).2 = [] := by
  exact ⟨by decide, by decide⟩

/-- Claim C5 as amended: a row whose timestamp string is parsed by none of
the recognized encodings is dropped from the output silently (no log line is
emitted), every other valid row before or after it still appears unchanged,
and the loop completes normally. -/
theorem C5_unparseable_row_dropped (p : Period) (pre post : List (ℚ × String))
    (row : ℚ × String) (h : parseTimestamp row.2 = none) :
    (processRows p (pre ++ row :: post)).1
        = (processRows p pre).1 ++ (processRows p post).1
      ∧ (processRows p (pre ++ row :: post)).2 = [] := by
  refine ⟨?_, processRows_logs p _⟩
  induction pre with
  | nil => simp [processRows, h]
  | cons a rest ih =>
    simp only [List.cons_append, processRows]
    cases hp : parseTimestamp a.2 <;> simp [hp, ih]

/-- Witness for the amended C5 on a concrete row triple. -/
theorem C5_unparseable_row_dropped_witness :
    parseTimestamp ("bogus" : String) = none
      ∧ ((processRows Period.day
            ([((50 : ℚ), ("2024-03-30 10:15:00" : String))]
              ++ ((60 : ℚ), ("bogus" : String))
                :: [((70 : ℚ), ("2024-03-30" : String))])).1
          = (processRows Period.day [((50 : ℚ), ("2024-03-30 10:15:00" : String))]).1
            ++ (processRows Period.day [((70 : ℚ), ("2024-03-30" : String))]).1
        ∧ (processRows Period.day
            ([((50 : ℚ), ("2024-03-30 10:15:00" : String))]
              ++ ((60 : ℚ), ("bogus" : String))
                :: [((70 : ℚ), ("2024-03-30" : String))])).2 = []) :=
  ⟨by decide, C5_unparseable_row_dropped Period.day _ _ _ (by decide)⟩

/-- Claim C6: whatever the sensor produced, a failed insert leaves the
temperature endpoint answering 200 with exactly the just-read value; the
failure surfaces only as a log line. -/
theorem C6_save_failure_invisible (sensorData : Option String) (sec unixNano : Int)
    (saveOk : Bool) (now : DateTime) (h : saveOk = false) :
    (temperatureHandler sensorData sec unixNano saveOk now).1.status = 200
      ∧ (temperatureHandler sensorData sec unixNano saveOk now).1.body
          = Body.json (Json.obj [(("temperature" : String),
              Json.num (getTemperature sensorData sec unixNano).1),
            (("timestamp" : String), Json.str (renderFull now))])
      ∧ (temperatureHandler sensorData sec unixNano saveOk now).2
          = [("Error saving temperature to database" : String)] := by
  subst h
  refine ⟨?_, ?_, ?_⟩ <;>
    simp [temperatureHandler, getTemperature_no_error]

/-- Witness for C6 with an unreadable sensor and a failing insert. -/
theorem C6_save_failure_invisible_witness :
    (temperatureHandler none 0 0 false ⟨2024, 3, 31, 12, 0, 0⟩).1.status = 200
      ∧ (temperatureHandler none 0 0 false ⟨2024, 3, 31, 12, 0, 0⟩).1.body
          = Body.json (Json.obj [(("temperature" : String),
              Json.num (getTemperature none 0 0).1),
            (("timestamp" : String), Json.str (renderFull ⟨2024, 3, 31, 12, 0, 0⟩))])
      ∧ (temperatureHandler none 0 0 false ⟨2024, 3, 31, 12, 0, 0⟩).2
          = [("Error saving temperature to database" : String)] :=
  C6_save_failure_invisible none 0 0 false ⟨2024, 3, 31, 12, 0, 0⟩ rfl

/-- Claim C7: for every pair of clock readings the synthetic fallback value,
after the two clamp branches, lies in the closed interval [40, 80]. -/
theorem C7_synthetic_clamped_range (sec unixNano : Int) :
    40 ≤ syntheticTemp sec unixNano ∧ syntheticTemp sec unixNano ≤ 80 := by
  unfold syntheticTemp
  dsimp only
  split_ifs <;> constructor <;> linarith

/-- Claim C9: the sensor read never returns an error, hence the 500 branch of
the temperature endpoint is unreachable: it always answers 200 with the
reading and the current time rendered `YYYY-MM-DD HH:MM:SS` (for a valid
clock value, the full-datetime layout parses that text back to `now`). -/
theorem C9_sensor_read_total (sensorData : Option String) (sec unixNano : Int)
    (saveOk : Bool) (now : DateTime) :
    (getTemperature sensorData sec unixNano).2 = false
      ∧ (temperatureHandler sensorData sec unixNano saveOk now).1.status = 200
      ∧ (temperatureHandler sensorData sec unixNano saveOk now).1.body
          = Body.json (Json.obj [(("temperature" : String),
              Json.num (getTemperature sensorData sec unixNano).1),
            (("timestamp" : String), Json.str (renderFull now))])
      ∧ (now.isValid = true → parseFullDT (renderFull now).data = some now) := by
  refine ⟨getTemperature_no_error _ _ _, ?_, ?_, fun hv => parseFullDT_renderFull now hv⟩ <;>
    simp [temperatureHandler, getTemperature_no_error]

/-- Witness for C9 at a concrete clock value and store outcome. -/
theorem C9_sensor_read_total_witness :
    (getTemperature none 0 0).2 = false
      ∧ (temperatureHandler none 0 0 true ⟨2024, 3, 31, 12, 0, 0⟩).1.status = 200
      ∧ (temperatureHandler none 0 0 true ⟨2024, 3, 31, 12, 0, 0⟩).1.body
          = Body.json (Json.obj [(("temperature" : String),
              Json.num (getTemperature none 0 0).1),
            (("timestamp" : String), Json.str (renderFull ⟨2024, 3, 31, 12, 0, 0⟩))])
      ∧ ((⟨2024, 3, 31, 12, 0, 0⟩ : DateTime).isValid = true
          → parseFullDT (renderFull ⟨2024, 3, 31, 12, 0, 0⟩).data
              = some ⟨2024, 3, 31, 12, 0, 0⟩) :=
  C9_sensor_read_total none 0 0 true ⟨2024, 3, 31, 12, 0, 0⟩

/-- Truncated remainder by a positive modulus lies strictly between `-b`
and `b` (Go `%` on `int64`). -/
theorem tmod_bounds (a b : Int) (hb : 0 < b) : -b < a.tmod b ∧ a.tmod b < b := by
  cases a with
  | ofNat m =>
    have h0 : (0 : Int) ≤ Int.ofNat m := Int.ofNat_nonneg m
    have h1 := Int.tmod_nonneg b h0
    have h2 := Int.tmod_lt_of_pos (Int.ofNat m) hb
    omega
  | negSucc m =>
    obtain ⟨n, rfl⟩ : ∃ n : Nat, b = (n : Int) :=
      ⟨b.toNat, (Int.toNat_of_nonneg (le_of_lt hb)).symm⟩
    have hn : 0 < n := by exact_mod_cast hb
    have hmod : Int.tmod (Int.negSucc m) (n : Int)
        = -(((m + 1) % n : Nat) : Int) := rfl
    have hlt := Nat.mod_lt (m + 1) hn
    omega

/-- Claim C10 counterexample: at clock readings `Unix() = -59`,
`UnixNano() = -59·10⁹` (a pre-1970 instant) the unclamped synthetic value is
413/6 ≈ 68.8 — outside [49, 61] — because Go's truncated `%` makes the
sawtooth term positive and large for negative seconds. -/
theorem C10_counterexample : ¬ (rawTemp (-59) (-59000000000) ≤ 61) := by
  have h1 : Int.tmod (-59) 60 = -59 := by decide
  have h2 : Int.tmod (Int.tdiv (-59000000000) 1000000) 10 = 0 := by decide
  unfold rawTemp
  rw [h1, h2]
  norm_num

/-- Claim C10 as amended: for nonnegative clock readings the unclamped
synthetic value lies within [49, 61]; for all readings of either sign it
still lies strictly inside (40, 75), so neither clamp branch is ever taken
(the clamped value equals the raw one) and the value never reaches the
75-degree critical display threshold. -/
theorem C10_raw_synthetic_range :
    (∀ sec unixNano : Int, 0 ≤ sec → 0 ≤ unixNano →
        49 ≤ rawTemp sec unixNano ∧ rawTemp sec unixNano ≤ 61)
      ∧ (∀ sec unixNano : Int,
          40 < rawTemp sec unixNano ∧ rawTemp sec unixNano < 75
            ∧ syntheticTemp sec unixNano = rawTemp sec unixNano) := by
  have raw_gen : ∀ sec unixNano : Int,
      40 < rawTemp sec unixNano ∧ rawTemp sec unixNano < 75 := by
    intro sec unixNano
    obtain ⟨hm1, hm2⟩ := tmod_bounds sec 60 (by norm_num)
    obtain ⟨hn1, hn2⟩ := tmod_bounds (Int.tdiv unixNano 1000000) 10 (by norm_num)
    have hm1' : (-60 : ℚ) < ((Int.tmod sec 60 : Int) : ℚ) := by exact_mod_cast hm1
    have hm2' : ((Int.tmod sec 60 : Int) : ℚ) < 60 := by exact_mod_cast hm2
    have hn1' : (-10 : ℚ) < ((Int.tmod (Int.tdiv unixNano 1000000) 10 : Int) : ℚ) := by
      exact_mod_cast hn1
    have hn2' : ((Int.tmod (Int.tdiv unixNano 1000000) 10 : Int) : ℚ) < 10 := by
      exact_mod_cast hn2
    unfold rawTemp
    dsimp only
    push_cast
    constructor <;> linarith
  refine ⟨?_, fun sec unixNano => ⟨(raw_gen sec unixNano).1, (raw_gen sec unixNano).2, ?_⟩⟩
  · intro sec unixNano hs hn0
    have h1 : 0 ≤ Int.tmod sec 60 := Int.tmod_nonneg 60 hs
    have h2 : Int.tmod sec 60 < 60 := Int.tmod_lt_of_pos sec (by norm_num)
    have h3 : 0 ≤ Int.tdiv unixNano 1000000 := Int.tdiv_nonneg hn0 (by norm_num)
    have h4 : 0 ≤ Int.tmod (Int.tdiv unixNano 1000000) 10 := Int.tmod_nonneg 10 h3
    have h5 : Int.tmod (Int.tdiv unixNano 1000000) 10 < 10 :=
      Int.tmod_lt_of_pos _ (by norm_num)
    have h1' : (0 : ℚ) ≤ ((Int.tmod sec 60 : Int) : ℚ) := by exact_mod_cast h1
    have h2' : ((Int.tmod sec 60 : Int) : ℚ) ≤ 59 := by
      exact_mod_cast (by omega : Int.tmod sec 60 ≤ 59)
    have h4' : (0 : ℚ) ≤ ((Int.tmod (Int.tdiv unixNano 1000000) 10 : Int) : ℚ) := by
      exact_mod_cast h4
    have h5' : ((Int.tmod (Int.tdiv unixNano 1000000) 10 : Int) : ℚ) ≤ 9 := by
      exact_mod_cast (by omega : Int.tmod (Int.tdiv unixNano 1000000) 10 ≤ 9)
    unfold rawTemp
    dsimp only
    push_cast
    constructor <;> linarith
  · have h40 := (raw_gen sec unixNano).1
    have h75 := (raw_gen sec unixNano).2
    unfold syntheticTemp
    dsimp only
    rw [if_neg (show ¬ rawTemp sec unixNano < 40 by linarith)]
    rw [if_neg (show ¬ rawTemp sec unixNano > 80 by linarith)]

/-- Witness for the amended C10 at a concrete nonnegative instant. -/
theorem C10_raw_synthetic_range_witness :
    ((0 : Int) ≤ 5 ∧ (0 : Int) ≤ 7)
      ∧ (49 ≤ rawTemp 5 7 ∧ rawTemp 5 7 ≤ 61) :=
  ⟨⟨by decide, by decide⟩, C10_raw_synthetic_range.1 5 7 (by decide) (by decide)⟩

/-- One SQLite calendar month before `(y, mo, d)` lies exactly the previous
month's length in days earlier, whatever the (possibly overflowing) day of
month. -/
theorem daysFromCivilN_prevMonth (y mo d : Nat) (h1 : 1 ≤ mo) (h2 : mo ≤ 12)
    (h3 : 1 ≤ d) (hy : 2 ≤ y) :
    (daysFromCivilN y mo d : Int)
        - daysFromCivilN (if mo = 1 then y - 1 else y) (if mo = 1 then 12 else mo - 1) d
      = daysInMonth (if mo = 1 then y - 1 else y) (if mo = 1 then 12 else mo - 1) := by
  interval_cases mo <;>
    (simp only [daysFromCivilN, daysInMonth, isLeapYear]; norm_num) <;>
    omega

/-- One SQLite calendar year before `(y, mo, d)` lies exactly 365 or 366
days earlier. -/
theorem daysFromCivilN_prevYear (y mo d : Nat) (h1 : 1 ≤ mo) (h2 : mo ≤ 12)
    (h3 : 1 ≤ d) (hy : 2 ≤ y) :
    (daysFromCivilN y mo d : Int) - daysFromCivilN (y - 1) mo d = 365
      ∨ (daysFromCivilN y mo d : Int) - daysFromCivilN (y - 1) mo d = 366 := by
  rcases le_or_lt mo 2 with hmo | hmo
  · simp only [daysFromCivilN, if_pos hmo]
    omega
  · have hmo' : ¬ mo ≤ 2 := by omega
    simp only [daysFromCivilN, if_neg hmo']
    omega

/-- The time of day cancels: the `-1 month` cutoff lies a whole number of
civil days before `now`. -/
theorem cutoff_month_diff (now : DateTime) :
    now.toSeconds - cutoffSec Period.month now
      = 86400 * ((daysFromCivilN now.y now.mo now.d : Int)
          - daysFromCivilN (prevMonthY now) (prevMonthMo now) now.d) := by
  simp only [cutoffSec, DateTime.toSeconds]
  push_cast
  ring

/-- The time of day cancels: the `-1 year` cutoff lies a whole number of
civil days before `now`. -/
theorem cutoff_year_diff (now : DateTime) :
    now.toSeconds - cutoffSec Period.year now
      = 86400 * ((daysFromCivilN now.y now.mo now.d : Int)
          - daysFromCivilN (now.y - 1) now.mo now.d) := by
  simp only [cutoffSec, DateTime.toSeconds]
  push_cast
  ring

/-- Claim C8 counterexample: at query time 2024-03-31 12:00:00 the `month`
query's cutoff is `datetime('now','-1 month')` = 2024-03-02 12:00:00 (a
29-day window), so a reading at 2024-03-02 00:00:00 — squarely inside the
last 30 days — is selected by the claim's fixed 30-day window but excluded
by the code, and the chart result is empty. -/
theorem C8_counterexample :
    DateTime.toSeconds ⟨2024, 3, 31, 12, 0, 0⟩ - 30 * 86400
        ≤ DateTime.toSeconds ⟨2024, 3, 2, 0, 0, 0⟩
      ∧ windowReadings Period.month ⟨2024, 3, 31, 12, 0, 0⟩
          [⟨50, ⟨2024, 3, 2, 0, 0, 0⟩⟩] = []
      ∧ chartPoints Period.month ⟨2024, 3, 31, 12, 0, 0⟩
          [⟨50, ⟨2024, 3, 2, 0, 0, 0⟩⟩] = [] := by
  refine ⟨by decide, by decide, by decide⟩

/-- Claim C8 as amended: the `month` (resp. `year`) period selects exactly
the readings timestamped at or after the query time shifted back one
calendar month (resp. one calendar year) in SQLite's sense; that month
window spans exactly the previous month's length — between 28 and 31 days —
and the year window exactly 365 or 366 days, not fixed 30- and 365-day
windows. -/
theorem C8_calendar_windows (now : DateTime) (store : List Reading)
    (hv : now.isValid = true) (hy : 2 ≤ now.y) :
    (∀ r, r ∈ windowReadings Period.month now store
        ↔ r ∈ store ∧ cutoffSec Period.month now ≤ r.ts.toSeconds)
      ∧ (∀ r, r ∈ windowReadings Period.year now store
          ↔ r ∈ store ∧ cutoffSec Period.year now ≤ r.ts.toSeconds)
      ∧ now.toSeconds - cutoffSec Period.month now
          = 86400 * daysInMonth (prevMonthY now) (prevMonthMo now)
      ∧ 28 * 86400 ≤ now.toSeconds - cutoffSec Period.month now
      ∧ now.toSeconds - cutoffSec Period.month now ≤ 31 * 86400
      ∧ (now.toSeconds - cutoffSec Period.year now = 365 * 86400
          ∨ now.toSeconds - cutoffSec Period.year now = 366 * 86400) := by
  obtain ⟨hv1, hv2, hv3, hv4, hv5, hv6, hv7, hv8, hv9⟩ := (isValid_iff now).1 hv
  have hmonth : (daysFromCivilN now.y now.mo now.d : Int)
      - daysFromCivilN (prevMonthY now) (prevMonthMo now) now.d
      = daysInMonth (prevMonthY now) (prevMonthMo now) :=
    daysFromCivilN_prevMonth now.y now.mo now.d hv3 hv4 hv5 hy
  have hyear := daysFromCivilN_prevYear now.y now.mo now.d hv3 hv4 hv5 hy
  have hmd : now.toSeconds - cutoffSec Period.month now
      = 86400 * daysInMonth (prevMonthY now) (prevMonthMo now) := by
    rw [cutoff_month_diff, hmonth]
  have h28 := daysInMonth_ge (prevMonthY now) (prevMonthMo now)
  have h31 := daysInMonth_le (prevMonthY now) (prevMonthMo now)
  refine ⟨?_, ?_, hmd, ?_, ?_, ?_⟩
  · intro r
    simp [windowReadings, List.mem_filter, decide_eq_true_eq]
  · intro r
    simp [windowReadings, List.mem_filter, decide_eq_true_eq]
  · rw [hmd]
    omega
  · rw [hmd]
    omega
  · rw [cutoff_year_diff]
    omega

/-- Witness for the amended C8 at a concrete query time and store. -/
theorem C8_calendar_windows_witness :
    ((⟨2024, 3, 31, 12, 0, 0⟩ : DateTime).isValid = true ∧ 2 ≤ (2024 : Nat))
      ∧ (∀ r, r ∈ windowReadings Period.month ⟨2024, 3, 31, 12, 0, 0⟩
            [⟨50, ⟨2024, 3, 2, 0, 0, 0⟩⟩]
          ↔ r ∈ ([⟨50, ⟨2024, 3, 2, 0, 0, 0⟩⟩] : List Reading)
            ∧ cutoffSec Period.month ⟨2024, 3, 31, 12, 0, 0⟩ ≤ r.ts.toSeconds)
      ∧ (∀ r, r ∈ windowReadings Period.year ⟨2024, 3, 31, 12, 0, 0⟩
            [⟨50, ⟨2024, 3, 2, 0, 0, 0⟩⟩]
          ↔ r ∈ ([⟨50, ⟨2024, 3, 2, 0, 0, 0⟩⟩] : List Reading)
            ∧ cutoffSec Period.year ⟨2024, 3, 31, 12, 0, 0⟩ ≤ r.ts.toSeconds)
      ∧ DateTime.toSeconds ⟨2024, 3, 31, 12, 0, 0⟩
            - cutoffSec Period.month ⟨2024, 3, 31, 12, 0, 0⟩
          = 86400 * daysInMonth (prevMonthY ⟨2024, 3, 31, 12, 0, 0⟩)
              (prevMonthMo ⟨2024, 3, 31, 12, 0, 0⟩)
      ∧ 28 * 86400 ≤ DateTime.toSeconds ⟨2024, 3, 31, 12, 0, 0⟩
          - cutoffSec Period.month ⟨2024, 3, 31, 12, 0, 0⟩
      ∧ DateTime.toSeconds ⟨2024, 3, 31, 12, 0, 0⟩
          - cutoffSec Period.month ⟨2024, 3, 31, 12, 0, 0⟩ ≤ 31 * 86400
      ∧ (DateTime.toSeconds ⟨2024, 3, 31, 12, 0, 0⟩
            - cutoffSec Period.year ⟨2024, 3, 31, 12, 0, 0⟩ = 365 * 86400
          ∨ DateTime.toSeconds ⟨2024, 3, 31, 12, 0, 0⟩
            - cutoffSec Period.year ⟨2024, 3, 31, 12, 0, 0⟩ = 366 * 86400) :=
  ⟨⟨by decide, by decide⟩,
    C8_calendar_windows ⟨2024, 3, 31, 12, 0, 0⟩ [⟨50, ⟨2024, 3, 2, 0, 0, 0⟩⟩]
      (by decide) (by decide)⟩

/-- Witness for C7 at a concrete instant. -/
theorem C7_synthetic_clamped_range_witness :
    40 ≤ syntheticTemp 5 7 ∧ syntheticTemp 5 7 ≤ 80 :=
  C7_synthetic_clamped_range 5 7
